import Mathlib

/-!
# Vespera Siril plugin — verification of the pipeline orchestrator

Shallow embedding of the two scripts of the repository:

* `Vespera_Pro_Drizzle.py` — the drizzle preprocessing pipeline
  (`ProcessingThread._process` and its helpers, the configuration
  registries `SKY_PRESETS` / `FILTER_CONFIGS` / `STACKING_METHODS`, and the
  structure detection of `VesperaProGUI._check_folders` /
  `_detect_native_structure`);
* `Vespera_Quick_Prep.py` — the one-click preparation pipeline
  (`PrepWorker.run`).

The stateful pipelines are embedded as pure functions from an abstract
filesystem state and the user settings to the ordered list of observable
actions they perform (progress events, log lines, host-engine commands,
directory creation, cleanup, and the terminal `finished` event).  Host
engine calls are modelled as succeeding, except where a claim is about a
specific failure, in which case the outcome is an explicit parameter.
-/

/-- The last element of a cons cell whose tail ends in an explicit
singleton. -/
lemma getLast?_cons_concat {α : Type} (a : α) (l : List α) (x : α) :
    (a :: (l ++ [x])).getLast? = some x := by
  have h : a :: (l ++ [x]) = (a :: l) ++ [x] := rfl
  rw [h]
  exact List.getLast?_concat _

/-- The last element of a cons cell whose tail ends in an explicit pair. -/
lemma getLast?_cons_append_pair {α : Type} (a : α) (l : List α) (x y : α) :
    (a :: (l ++ [x, y])).getLast? = some y := by
  have h : a :: (l ++ [x, y]) = ((a :: l) ++ [x]) ++ [y] := by simp
  rw [h]
  exact List.getLast?_concat _

/-- Push `getLast?` of a cons cell through an append in its tail. -/
@[simp] lemma getLast?_cons_append {α : Type} (a : α) (l₁ l₂ : List α) :
    (a :: (l₁ ++ l₂)).getLast? = l₂.getLast?.or (a :: l₁).getLast? := by
  have h : a :: (l₁ ++ l₂) = (a :: l₁) ++ l₂ := rfl
  rw [h, List.getLast?_append]

namespace VesperaPro

/-- Observable action of `ProcessingThread` (in emission order).
`cmd` is a call on the host-engine command interface (`self.siril.cmd`),
`progress`/`finished` are the Qt signals, `logMsg` is `self._log` (the log
message text is abbreviated where its exact content is dynamic),
`mkdir` is `os.makedirs`, `cleanup` is `self._cleanup_folder`, and
`moveRef` is one `shutil.move` of `_move_tiff_to_reference`. -/
inductive Action where
  | progress (percent : Nat) (message : String)
  | finished (success : Bool) (message : String)
  | logMsg (message : String)
  | cmd (name : String) (args : List String)
  | mkdir (path : String)
  | cleanup (folder : String)
  | moveRef (index : Nat)
deriving DecidableEq, Repr

-- `class ProcessingProgress`: constants for processing progress percentages.
namespace ProcessingProgress

def CLEANUP : Nat := 5

def DARK_PROCESSING : Nat := 10

def LIGHT_CONVERSION : Nat := 20

def CALIBRATION : Nat := 30

def REGISTRATION : Nat := 50

def STACKING : Nat := 75

def FINALIZATION : Nat := 88

def COMPLETE : Nat := 100

end ProcessingProgress

/-- Python `str()` of a non-negative float with one decimal digit, as used
for the sigma thresholds (`str(sigma_low)`) and the drizzle parameters
(f-string interpolation of floats).  All float values appearing in the
registries have at most one decimal digit, so this renders exactly like
Python (`str(3.0) = "3.0"`, `str(2.5) = "2.5"`). -/
def pyFloatStr (q : ℚ) : String :=
  let tenths : ℤ := q.num * 10 / q.den
  toString (tenths / 10) ++ "." ++ toString (tenths % 10)

/-- One entry of `SKY_PRESETS` (the UI-only `description` string is omitted). -/
structure SkyPreset where
  sigma_low : ℚ
  sigma_high : ℚ
  bg_samples : Nat
  bg_tolerance : ℚ
  gradient_correction : Bool
deriving DecidableEq, Repr

/-- `SKY_PRESETS`: sky quality presets (Bortle scale). -/
def SKY_PRESETS : List (String × SkyPreset) :=
  [("Bortle 1-2 (Excellent Dark)",
    { sigma_low := 3, sigma_high := 3, bg_samples := 6,
      bg_tolerance := 1, gradient_correction := false }),
   ("Bortle 3-4 (Rural)",
    { sigma_low := 3, sigma_high := 3, bg_samples := 9,
      bg_tolerance := 1, gradient_correction := true }),
   ("Bortle 5-6 (Suburban)",
    { sigma_low := mkRat 5 2, sigma_high := 3, bg_samples := 12,
      bg_tolerance := mkRat 4 5, gradient_correction := true }),
   ("Bortle 7-8 (Urban)",
    { sigma_low := 2, sigma_high := mkRat 5 2, bg_samples := 16,
      bg_tolerance := mkRat 1 2, gradient_correction := true })]

/-- One entry of `FILTER_CONFIGS` (the UI-only `description` and the
unused `ha_channel`/`oiii_channel` strings are omitted). -/
structure FilterConfig where
  type : String
  script : String
deriving DecidableEq, Repr

/-- `FILTER_CONFIGS`: filter configurations. -/
def FILTER_CONFIGS : List (String × FilterConfig) :=
  [("No Filter (Stock)", { type := "broadband", script := "standard" }),
   ("Dual-Band (Ha/OIII)", { type := "dualband", script := "extract_haoiii" }),
   ("L-Pro / CLS (Light Pollution)", { type := "broadband_lp", script := "standard" }),
   ("Ha Narrowband", { type := "narrowband", script := "extract_ha" }),
   ("OIII Narrowband", { type := "narrowband", script := "extract_oiii" })]

/-- One entry of `STACKING_METHODS` (the UI-only `description` and
`tooltip` strings are omitted).  The drizzle keys are absent from the
"Standard Registration" entry in the source dict, hence `Option`; the code
reads them through `.get(key, default)`. -/
structure StackMethod where
  use_drizzle : Bool
  drizzle_scale : Option ℚ
  drizzle_pixfrac : Option ℚ
  drizzle_kernel : Option String
  interp : Option String
  feather : Nat
deriving DecidableEq, Repr

/-- `STACKING_METHODS`: the stacking-method registry. -/
def STACKING_METHODS : List (String × StackMethod) :=
  [("Bayer Drizzle (Recommended)",
    { use_drizzle := true, drizzle_scale := some 1, drizzle_pixfrac := some 1,
      drizzle_kernel := some "gaussian", interp := some "area", feather := 0 }),
   ("Bayer Drizzle (Square)",
    { use_drizzle := true, drizzle_scale := some 1, drizzle_pixfrac := some 1,
      drizzle_kernel := some "square", interp := some "area", feather := 0 }),
   ("Bayer Drizzle (Nearest)",
    { use_drizzle := true, drizzle_scale := some 1, drizzle_pixfrac := some 1,
      drizzle_kernel := some "gaussian", interp := some "nearest", feather := 0 }),
   ("Standard Registration",
    { use_drizzle := false, drizzle_scale := none, drizzle_pixfrac := none,
      drizzle_kernel := none, interp := none, feather := 0 }),
   ("Drizzle 2x Upscale",
    { use_drizzle := true, drizzle_scale := some 2, drizzle_pixfrac := some 1,
      drizzle_kernel := some "square", interp := some "area", feather := 0 })]

/-- The user settings dict passed to `ProcessingThread` by
`VesperaProGUI._start_processing`. -/
structure Settings where
  filter : String
  sky_quality : String
  stacking_method : String
  feather : Nat
  two_pass : Bool
  keep_temp_files : Bool
deriving DecidableEq, Repr

/-- Abstract state of the working directory, as observed by the globbing
and `os.path.exists` probes of the two scripts.  The fields record exactly
the facts the code reads:

* `darksDirExists` / `lightsDirExists` — `os.path.exists` of `darks/` and
  `lights/`;
* `numDarksOrganized` / `numLightsOrganized` — `_count_fits` of those two
  folders;
* `rootDarkCount` — number of root files matching `*-dark.fit`/`*-dark.fits`
  (any case), as globbed by `_detect_native_structure`;
* `imagesInitialExists` — `os.path.exists` of `01-images-initial/`;
* `nativeLightCount` — number of FITS files in `01-images-initial/` whose
  names do not contain `-dark`;
* `nativeTiffCount` — number of TIFF files in `01-images-initial/`, as
  globbed by `_move_tiff_to_reference`;
* `darkFileExists` — `os.path.exists("img-0001-dark.fits")`;
* `exposureTime` — the `LIVETIME` FITS header value read during
  finalization (the `except` fallback corresponds to the value "XXXX"). -/
structure Fs where
  darksDirExists : Bool
  lightsDirExists : Bool
  numDarksOrganized : Nat
  numLightsOrganized : Nat
  rootDarkCount : Nat
  imagesInitialExists : Bool
  nativeLightCount : Nat
  nativeTiffCount : Nat
  darkFileExists : Bool
  exposureTime : String
deriving DecidableEq, Repr

/-- Argument list of the calibrate command built by
`ProcessingThread._calibrate`. -/
def calibrateArgs (seq_name : String) (stack_method : StackMethod) : List String :=
  [seq_name, "-dark=../masters/dark_stacked", "-cc=dark", "-cfa"] ++
    (if stack_method.use_drizzle then
      ["-equalize_cfa"]
     else
      ["-debayer", "-equalize_cfa"])

/-- `ProcessingThread._calibrate`: calibrate the sequence with dark
subtraction and CFA handling. -/
def calibrateActs (seq_name : String) (stack_method : StackMethod) : List Action :=
  [.cmd "calibrate" (calibrateArgs seq_name stack_method),
   .logMsg "Calibration complete"]

/-- `ProcessingThread._register`: register images with or without drizzle;
`two_pass` comes from `self.settings.get("two_pass", False)`. -/
def registerActs (seq_name : String) (stack_method : StackMethod)
    (two_pass : Bool) : List Action :=
  (if stack_method.use_drizzle then
    [.cmd "register"
      (["pp_" ++ seq_name, "-drizzle",
        "-scale=" ++ pyFloatStr (stack_method.drizzle_scale.getD 1),
        "-pixfrac=" ++ pyFloatStr (stack_method.drizzle_pixfrac.getD 1),
        "-kernel=" ++ stack_method.drizzle_kernel.getD "square",
        "-interp=" ++ stack_method.interp.getD "area"] ++
       (if two_pass then ["-2pass"] else []))]
   else
    [.cmd "register" (["pp_" ++ seq_name] ++ (if two_pass then ["-2pass"] else []))]) ++
  (if two_pass then
    [.logMsg "Applying framing for two-pass registration..."] ++
    (if stack_method.use_drizzle then
      [.cmd "seqapplyreg" ["pp_" ++ seq_name, "-drizzle", "-framing=max"]]
     else
      [.cmd "seqapplyreg" ["pp_" ++ seq_name, "-framing=max"]])
   else []) ++
  [.logMsg "Registration complete"]

/-- `ProcessingThread._stack`: stack registered images with sigma rejection
and optional feather (`feather` comes from `self.settings.get("feather", 0)`). -/
def stackActs (seq_name : String) (feather : Nat) (sigma_low sigma_high : ℚ)
    (output_name : String) : List Action :=
  [.cmd "stack"
    ((["r_pp_" ++ seq_name, "rej", pyFloatStr sigma_low, pyFloatStr sigma_high,
       "-norm=addscale", "-output_norm", "-32b",
       "-rgb_equal", "-maximize", "-filter-included", "-weight=wfwhm"] ++
      (if 0 < feather then ["-feather=" ++ toString feather] else [])) ++
     ["-out=" ++ output_name]),
   .logMsg "Stacking complete"]

/-- `ProcessingThread._process_standard`: standard RGB processing.  The
`LIVETIME` header read only sets `self.final_filename`, which is never used
for an action, and is omitted. -/
def processStandard (seq_name : String) (stack_method : StackMethod)
    (feather : Nat) (sigma_low sigma_high : ℚ) (two_pass : Bool) : List Action :=
  [.progress ProcessingProgress.CALIBRATION "Calibrating..."] ++
  calibrateActs seq_name stack_method ++
  [.progress ProcessingProgress.REGISTRATION "Registering..."] ++
  registerActs seq_name stack_method two_pass ++
  [.progress ProcessingProgress.STACKING "Stacking..."] ++
  stackActs seq_name feather sigma_low sigma_high "result" ++
  [.progress ProcessingProgress.FINALIZATION "Finalizing...",
   .cmd "load" ["result"],
   .cmd "icc_remove" [],
   .cmd "save" ["../result_$LIVETIME:%d$s"],
   .cmd "cd" [".."]]

/-- `ProcessingThread._process_dualband`: dual-band Ha/OIII extraction.
`compositionOk` abstracts whether the host-engine calls of the
`try` block around the HOO composition succeed; its failure is modelled at
the first call of the block (`rgbcomp`), after which the `except` branch
logs the salmon-coloured note and execution continues. -/
def processDualband (seq_name : String) (stack_method : StackMethod)
    (feather : Nat) (sigma_low sigma_high : ℚ) (two_pass : Bool)
    (compositionOk : Bool) : List Action :=
  [.progress ProcessingProgress.CALIBRATION "Calibrating for dual-band..."] ++
  calibrateActs seq_name stack_method ++
  [.progress 45 "Registering..."] ++
  registerActs seq_name stack_method two_pass ++
  [.progress ProcessingProgress.STACKING "Stacking..."] ++
  stackActs seq_name feather sigma_low sigma_high "result_cfa" ++
  [.progress 75 "Extracting color channels...",
   .logMsg "Extracting color channels",
   .cmd "load" ["result_cfa"],
   .progress 80 "Building Ha image...",
   .cmd "split" ["Ha_temp", "temp_g", "temp_b"],
   .cmd "load" ["Ha_temp"],
   .cmd "icc_remove" [],
   .cmd "save" ["../Ha_result"],
   .progress 85 "Building OIII image...",
   .cmd "load" ["result_cfa"],
   .cmd "split" ["temp_r", "temp_g", "OIII_temp"],
   .cmd "load" ["OIII_temp"],
   .cmd "icc_remove" [],
   .cmd "save" ["../OIII_result"],
   .progress ProcessingProgress.FINALIZATION "Creating HOO composite...",
   .cmd "rgbcomp" ["../Ha_result", "../OIII_result", "../OIII_result", "-out=../HOO_result"]] ++
  (if compositionOk then
    [.cmd "load" ["../HOO_result"],
     .cmd "icc_remove" [],
     .cmd "save" ["../HOO_result_$LIVETIME:%d$s"]]
   else
    [.logMsg "HOO composite note"]) ++
  [.cmd "cd" [".."]]

/-- `ProcessingThread._process_narrowband`: generic narrowband processing
(`channel` is "Ha" or "OIII"); the final filename embeds the `LIVETIME`
header value (`exposureTime`; the `except` fallback corresponds to "XXXX"). -/
def processNarrowband (channel seq_name : String) (stack_method : StackMethod)
    (feather : Nat) (sigma_low sigma_high : ℚ) (two_pass : Bool)
    (exposureTime : String) : List Action :=
  [.logMsg ("Narrowband " ++ channel ++ " extraction"),
   .progress ProcessingProgress.CALIBRATION ("Calibrating for " ++ channel ++ "...")] ++
  calibrateActs seq_name stack_method ++
  [.progress 45 "Registering..."] ++
  registerActs seq_name stack_method two_pass ++
  [.progress ProcessingProgress.STACKING "Stacking..."] ++
  stackActs seq_name feather sigma_low sigma_high "result_cfa" ++
  [.progress 85 ("Extracting " ++ channel ++ "..."),
   .cmd "load" ["result_cfa"]] ++
  (if channel = "Ha" then
    [.cmd "split" [channel ++ "_temp", "temp_g", "temp_b"]]
   else
    [.cmd "split" ["temp_r", "temp_g", channel ++ "_temp"]]) ++
  [.cmd "load" [channel ++ "_temp"],
   .cmd "icc_remove" [],
   .cmd "save" ["../" ++ channel ++ "_result_" ++ exposureTime ++ "s.fit"],
   .cmd "cd" [".."]]

/-- `ProcessingThread._move_tiff_to_reference`: move TIFF reference images
to a `reference/` folder.  Faithfully translated, but note that no call
site of this method exists anywhere in the source: `_process` never invokes
it, so no run ever emits these actions. -/
def moveTiffToReference (fs : Fs) : List Action :=
  if fs.nativeTiffCount = 0 then []
  else .mkdir "reference" :: (List.range fs.nativeTiffCount).map (.moveRef ·)

/-- The filter-type dispatch at the end of `ProcessingThread._process`
("Branch based on filter type"): dual-band by `type`, the two narrowband
channels by `script`, standard RGB otherwise. -/
def filterDispatch (filter_config : FilterConfig) (light_seq_name : String)
    (stack_method : StackMethod) (feather : Nat) (sigma_low sigma_high : ℚ)
    (two_pass compositionOk : Bool) (exposureTime : String) : List Action :=
  if filter_config.type = "dualband" then
    processDualband light_seq_name stack_method feather
      sigma_low sigma_high two_pass compositionOk
  else if filter_config.script = "extract_ha" then
    processNarrowband "Ha" light_seq_name stack_method feather
      sigma_low sigma_high two_pass exposureTime
  else if filter_config.script = "extract_oiii" then
    processNarrowband "OIII" light_seq_name stack_method feather
      sigma_low sigma_high two_pass exposureTime
  else
    processStandard light_seq_name stack_method feather
      sigma_low sigma_high two_pass

/-- Main body of `ProcessingThread._process` once the three registry
lookups have succeeded and the folder-existence checks for the active
layout have passed (`native = true` for the `'native'` branch, `false` for
`'organized'`).  Covers lines 497-589 of the source: `os.makedirs` of the
two scratch directories, the file counting, the five configuration log
lines, the empty-set checks, pre-run cleanup, dark processing, light
conversion, the filter branch, post-run cleanup and the terminal events. -/
def processMain (st : Settings) (fs : Fs) (native : Bool)
    (filter_config : FilterConfig) (sky_preset : SkyPreset)
    (stack_method : StackMethod) (compositionOk : Bool) : List Action :=
  let num_darks : Nat := if native then 1 else fs.numDarksOrganized
  let num_lights : Nat := if native then fs.nativeLightCount else fs.numLightsOrganized
  [.mkdir "process", .mkdir "masters",
   .logMsg "Configuration", .logMsg "Sky Quality", .logMsg "Stacking",
   .logMsg "Structure", .logMsg "Found darks and lights"] ++
  (if num_darks = 0 then
    [.finished false "No dark frames found"]
   else if num_lights = 0 then
    [.finished false "No light frames found"]
   else
    [.progress ProcessingProgress.CLEANUP "Cleaning previous files..."] ++
    (if st.keep_temp_files then [] else [.cleanup "process", .cleanup "masters"]) ++
    [.progress ProcessingProgress.DARK_PROCESSING "Processing darks..."] ++
    (if native then
      [.logMsg "Single dark, using directly as master",
       .cmd "load" ["img-0001-dark.fits"],
       .cmd "save" ["masters/dark_stacked"]]
     else
      [.cmd "cd" ["darks"],
       .cmd "convert" ["dark", "-out=../masters"],
       .cmd "cd" ["../masters"]] ++
      (if num_darks = 1 then
        [.logMsg "Single dark, using directly as master",
         .cmd "load" ["dark_00001"],
         .cmd "save" ["dark_stacked"]]
       else
        [.logMsg "Stacking darks",
         .cmd "stack" ["dark", "rej", pyFloatStr sky_preset.sigma_low,
                       pyFloatStr sky_preset.sigma_high,
                       "-nonorm", "-out=dark_stacked"]])) ++
    [.progress ProcessingProgress.LIGHT_CONVERSION "Converting lights..."] ++
    (if native then [.cmd "cd" ["01-images-initial"]] else [.cmd "cd" ["../lights"]]) ++
    [.cmd "convert" [if native then "img-" else "light", "-out=../process"],
     .cmd "cd" ["../process"]] ++
    filterDispatch filter_config (if native then "img-" else "light") stack_method
      st.feather sky_preset.sigma_low sky_preset.sigma_high st.two_pass
      compositionOk fs.exposureTime ++
    (if st.keep_temp_files then [] else
      [.progress 98 "Cleaning up...",
       .cleanup "process", .cleanup "masters",
       .logMsg "Cleaned temp files"]) ++
    [.progress ProcessingProgress.COMPLETE "Complete!",
     .finished true "Processing complete!"])

/-- `ProcessingThread._process`, lines 449-495: registry lookups (a missing
key raises `KeyError`, which `run` turns into a `finished(False, "Error: …")`
event), per-layout path setup, and the folder-existence checks.  When
`folder_structure` is neither `'native'` nor `'organized'` (the GUI passes
`None` when no layout was detected), the `else` arm of the verification
block reads the unbound local `darks_dir`, raising `NameError`, which `run`
likewise turns into a failure event before anything else happens. -/
def process (st : Settings) (fs : Fs) (folder_structure : Option String)
    (compositionOk : Bool) : List Action :=
  match FILTER_CONFIGS.lookup st.filter, SKY_PRESETS.lookup st.sky_quality,
        STACKING_METHODS.lookup st.stacking_method with
  | some filter_config, some sky_preset, some stack_method =>
    if folder_structure = some "native" then
      if !fs.darkFileExists then
        [.finished false "Dark file not found: img-0001-dark.fits"]
      else if !fs.imagesInitialExists then
        [.finished false "Lights folder not found"]
      else
        processMain st fs true filter_config sky_preset stack_method compositionOk
    else if folder_structure = some "organized" then
      if !fs.darksDirExists then
        [.finished false "Dark folder not found"]
      else if !fs.lightsDirExists then
        [.finished false "Light folder not found"]
      else
        processMain st fs false filter_config sky_preset stack_method compositionOk
    else
      [.finished false "Error: NameError"]
  | _, _, _ => [.finished false "Error: KeyError"]

/-- Is this action the stacking call that produces the calibration master
(`stack … -out=dark_stacked`)?  The output name is the last argument of
every stack command the pipeline issues, so matching on it separates the
dark-master stack from the light stacks (`-out=result` / `-out=result_cfa`). -/
def isMasterStack (a : Action) : Bool :=
  match a with
  | .cmd n args => n == "stack" && args.getLast? == some "-out=dark_stacked"
  | _ => false

/-- Number of calibration-master stacking calls in a trace. -/
def masterStackCount (t : List Action) : Nat :=
  t.countP fun a => isMasterStack a

/-- Is this action a `save` into the working directory (a final artifact)?
All artifact saves use a `../`-prefixed path, while the calibration-master
saves stay inside the scratch directories.  (The prefix test is expressed
on the character list of the path.) -/
def isArtifactSave (a : Action) : Bool :=
  match a with
  | .cmd n args =>
    n == "save" &&
      (match args with
       | [p] => p.data.take 3 == ['.', '.', '/']
       | _ => false)
  | _ => false

/-- Number of final artifacts saved by a trace. -/
def artifactSaveCount (t : List Action) : Nat :=
  t.countP fun a => isArtifactSave a

/-- Is this action a host-engine command? -/
def isHostCmd (a : Action) : Bool :=
  match a with
  | .cmd _ _ => true
  | _ => false

/-- Number of host-engine commands issued by a trace. -/
def hostCmdCount (t : List Action) : Nat :=
  t.countP fun a => isHostCmd a

/-- Is this action part of the relocation of reference TIFF images (the
creation of the `reference/` folder or a move into it)? -/
def isRelocation (a : Action) : Bool :=
  match a with
  | .moveRef _ => true
  | .mkdir p => p == "reference"
  | _ => false

/-- Number of relocation actions in a trace. -/
def relocationCount (t : List Action) : Nat :=
  t.countP fun a => isRelocation a

/-- The sequence of percent values of the progress events of a trace, in
emission order. -/
def progressPercents (t : List Action) : List Nat :=
  t.filterMap fun a =>
    match a with
    | .progress p _ => some p
    | _ => none

@[simp] lemma masterStackCount_nil : masterStackCount [] = 0 := rfl

@[simp] lemma masterStackCount_cons (a : Action) (t : List Action) :
    masterStackCount (a :: t) =
      masterStackCount t + (if isMasterStack a then 1 else 0) :=
  List.countP_cons _ _ _

@[simp] lemma masterStackCount_append (t₁ t₂ : List Action) :
    masterStackCount (t₁ ++ t₂) = masterStackCount t₁ + masterStackCount t₂ :=
  List.countP_append _ _ _

@[simp] lemma artifactSaveCount_nil : artifactSaveCount [] = 0 := rfl

@[simp] lemma artifactSaveCount_cons (a : Action) (t : List Action) :
    artifactSaveCount (a :: t) =
      artifactSaveCount t + (if isArtifactSave a then 1 else 0) :=
  List.countP_cons _ _ _

@[simp] lemma artifactSaveCount_append (t₁ t₂ : List Action) :
    artifactSaveCount (t₁ ++ t₂) = artifactSaveCount t₁ + artifactSaveCount t₂ :=
  List.countP_append _ _ _

@[simp] lemma hostCmdCount_nil : hostCmdCount [] = 0 := rfl

@[simp] lemma hostCmdCount_cons (a : Action) (t : List Action) :
    hostCmdCount (a :: t) = hostCmdCount t + (if isHostCmd a then 1 else 0) :=
  List.countP_cons _ _ _

@[simp] lemma hostCmdCount_append (t₁ t₂ : List Action) :
    hostCmdCount (t₁ ++ t₂) = hostCmdCount t₁ + hostCmdCount t₂ :=
  List.countP_append _ _ _

@[simp] lemma masterStackCount_calibrateActs (s : String) (sm : StackMethod) :
    masterStackCount (calibrateActs s sm) = 0 := by
  cases h : sm.use_drizzle <;>
    simp [calibrateActs, calibrateArgs, isMasterStack, h]

@[simp] lemma masterStackCount_registerActs (s : String) (sm : StackMethod) (tp : Bool) :
    masterStackCount (registerActs s sm tp) = 0 := by
  cases h : sm.use_drizzle <;> cases tp <;>
    simp [registerActs, isMasterStack, h]

lemma masterStackCount_stackActs (s : String) (f : Nat) (a b : ℚ) (out : String)
    (h : (("-out=" ++ out) == "-out=dark_stacked") = false) :
    masterStackCount (stackActs s f a b out) = 0 := by
  simp [stackActs, isMasterStack, getLast?_cons_concat, h]

@[simp] lemma masterStackCount_stackActs_result (s : String) (f : Nat) (a b : ℚ) :
    masterStackCount (stackActs s f a b "result") = 0 :=
  masterStackCount_stackActs s f a b "result" rfl

@[simp] lemma masterStackCount_stackActs_result_cfa (s : String) (f : Nat) (a b : ℚ) :
    masterStackCount (stackActs s f a b "result_cfa") = 0 :=
  masterStackCount_stackActs s f a b "result_cfa" rfl

@[simp] lemma masterStackCount_processStandard (s : String) (sm : StackMethod)
    (f : Nat) (a b : ℚ) (tp : Bool) :
    masterStackCount (processStandard s sm f a b tp) = 0 := by
  simp [processStandard, isMasterStack]

@[simp] lemma masterStackCount_processDualband (s : String) (sm : StackMethod)
    (f : Nat) (a b : ℚ) (tp co : Bool) :
    masterStackCount (processDualband s sm f a b tp co) = 0 := by
  cases co <;> simp [processDualband, isMasterStack]

@[simp] lemma masterStackCount_processNarrowband (ch s : String) (sm : StackMethod)
    (f : Nat) (a b : ℚ) (tp : Bool) (e : String) :
    masterStackCount (processNarrowband ch s sm f a b tp e) = 0 := by
  by_cases h : ch = "Ha" <;> simp [processNarrowband, isMasterStack, h]

@[simp] lemma artifactSaveCount_calibrateActs (s : String) (sm : StackMethod) :
    artifactSaveCount (calibrateActs s sm) = 0 := by
  cases h : sm.use_drizzle <;>
    simp [calibrateActs, calibrateArgs, isArtifactSave, h]

@[simp] lemma artifactSaveCount_registerActs (s : String) (sm : StackMethod) (tp : Bool) :
    artifactSaveCount (registerActs s sm tp) = 0 := by
  cases h : sm.use_drizzle <;> cases tp <;>
    simp [registerActs, isArtifactSave, h]

@[simp] lemma artifactSaveCount_stackActs (s : String) (f : Nat) (a b : ℚ)
    (out : String) : artifactSaveCount (stackActs s f a b out) = 0 := by
  simp [stackActs, isArtifactSave]

@[simp] lemma masterStackCount_filterDispatch (fc : FilterConfig) (s : String)
    (sm : StackMethod) (f : Nat) (a b : ℚ) (tp co : Bool) (e : String) :
    masterStackCount (filterDispatch fc s sm f a b tp co e) = 0 := by
  unfold filterDispatch
  split_ifs <;> simp

/-- The dual-band branch saves exactly three artifacts when the HOO
composition succeeds and exactly two when it fails. -/
@[simp] lemma artifactSaveCount_processDualband (s : String) (sm : StackMethod)
    (f : Nat) (a b : ℚ) (tp : Bool) (co : Bool) :
    artifactSaveCount (processDualband s sm f a b tp co) = if co then 3 else 2 := by
  cases co <;> simp [processDualband, isArtifactSave]

/-- Selecting a dual-band filter configuration routes the dispatch to the
dual-band branch, whose artifact-save count depends only on the success of
the HOO composition. -/
lemma artifactSaveCount_filterDispatch_dualband (fc : FilterConfig) (s : String)
    (sm : StackMethod) (f : Nat) (a b : ℚ) (tp co : Bool) (e : String)
    (h : fc.type = "dualband") :
    artifactSaveCount (filterDispatch fc s sm f a b tp co e) = if co then 3 else 2 := by
  simp [filterDispatch, h]

/-- `VesperaProGUI._detect_native_structure`: returns the dark/light counts
of the native Vespera layout when both sets are non-empty. -/
def detectNativeStructure (fs : Fs) : Option (Nat × Nat) :=
  let num_lights := if fs.imagesInitialExists then fs.nativeLightCount else 0
  if fs.rootDarkCount ≠ 0 ∧ num_lights ≠ 0 then
    some (fs.rootDarkCount, num_lights)
  else
    none

/-- The structure decision of `VesperaProGUI._check_folders`: the chosen
`folder_structure` together with the dark and light counts shown in the
GUI.  The organized probe counts FITS files only when the folder exists. -/
def checkFolders (fs : Fs) : Option String × Nat × Nat :=
  let num_darks_organized := if fs.darksDirExists then fs.numDarksOrganized else 0
  let num_lights_organized := if fs.lightsDirExists then fs.numLightsOrganized else 0
  if 0 < num_darks_organized ∧ 0 < num_lights_organized then
    (some "organized", num_darks_organized, num_lights_organized)
  else
    match detectNativeStructure fs with
    | some (d, l) => (some "native", d, l)
    | none => (none, 0, 0)

/-- With successful registry lookups and both organized folders present,
an organized run is the main body with `native = false`. -/
lemma process_eq_organized (st : Settings) (fs : Fs) (co : Bool)
    (fc : FilterConfig) (sp : SkyPreset) (sm : StackMethod)
    (h1 : FILTER_CONFIGS.lookup st.filter = some fc)
    (h2 : SKY_PRESETS.lookup st.sky_quality = some sp)
    (h3 : STACKING_METHODS.lookup st.stacking_method = some sm)
    (hd : fs.darksDirExists = true) (hl : fs.lightsDirExists = true) :
    process st fs (some "organized") co = processMain st fs false fc sp sm co := by
  simp [process, h1, h2, h3, hd, hl]

/-- With successful registry lookups, the fixed-name dark file present and
the `01-images-initial` folder present, a native run is the main body with
`native = true`. -/
lemma process_eq_native (st : Settings) (fs : Fs) (co : Bool)
    (fc : FilterConfig) (sp : SkyPreset) (sm : StackMethod)
    (h1 : FILTER_CONFIGS.lookup st.filter = some fc)
    (h2 : SKY_PRESETS.lookup st.sky_quality = some sp)
    (h3 : STACKING_METHODS.lookup st.stacking_method = some sm)
    (hdf : fs.darkFileExists = true) (hii : fs.imagesInitialExists = true) :
    process st fs (some "native") co = processMain st fs true fc sp sm co := by
  simp [process, h1, h2, h3, hdf, hii]

/-- Sample settings used by concrete check points: standard (non-drizzle)
stacking, rural sky preset, no filter, temp files kept. -/
def sampleSettings : Settings :=
  { filter := "No Filter (Stock)", sky_quality := "Bortle 3-4 (Rural)",
    stacking_method := "Standard Registration", feather := 0,
    two_pass := false, keep_temp_files := true }

/-- A working directory satisfying both the organized and the native
detection criteria at once (3 calibration frames and 10 signal frames in
each layout, plus 2 reference TIFF rasters). -/
def fsBoth : Fs :=
  { darksDirExists := true, lightsDirExists := true, numDarksOrganized := 3,
    numLightsOrganized := 10, rootDarkCount := 3, imagesInitialExists := true,
    nativeLightCount := 10, nativeTiffCount := 2, darkFileExists := true,
    exposureTime := "1234" }

/-- The "Drizzle 2x Upscale" entry of the stacking-method registry. -/
def upscaleMethod : StackMethod :=
  { use_drizzle := true, drizzle_scale := some 2, drizzle_pixfrac := some 1,
    drizzle_kernel := some "square", interp := some "area", feather := 0 }

/-- C9: every entry of the stacking-method registry whose drizzle scale
exceeds 1.0 uses the square drizzle kernel (reading the fields exactly as
`_register` does, through `.get` with the source defaults). -/
theorem c9_upscale_requires_square_kernel :
    ∀ p ∈ STACKING_METHODS, 1 < (p.2).drizzle_scale.getD 1 →
      (p.2).drizzle_kernel.getD "square" = "square" := by
  intro p hp
  simp only [STACKING_METHODS, List.mem_cons, List.not_mem_nil, or_false] at hp
  rcases hp with h | h | h | h | h <;> subst h <;> intro hs
  · norm_num [Option.getD] at hs
  · norm_num [Option.getD] at hs
  · norm_num [Option.getD] at hs
  · norm_num [Option.getD] at hs
  · rfl

/-- Check point for C9 at the one up-scaling registry entry. -/
theorem c9_upscale_requires_square_kernel_witness :
    ("Drizzle 2x Upscale", upscaleMethod) ∈ STACKING_METHODS ∧
    (1 : ℚ) < upscaleMethod.drizzle_scale.getD 1 ∧
    upscaleMethod.drizzle_kernel.getD "square" = "square" := by
  have hm : ("Drizzle 2x Upscale", upscaleMethod) ∈ STACKING_METHODS := by
    unfold STACKING_METHODS upscaleMethod
    exact .tail _ (.tail _ (.tail _ (.tail _ (.head _))))
  have hs : (1 : ℚ) < upscaleMethod.drizzle_scale.getD 1 := by
    norm_num [upscaleMethod, Option.getD]
  exact ⟨hm, hs, c9_upscale_requires_square_kernel _ hm hs⟩

/-- C6: a working directory that satisfies the organized detection
criteria (existing `darks/` and `lights/` folders with at least one FITS
frame each) is classified as organized by `_check_folders`, even when the
native detection criteria hold simultaneously. -/
theorem c6_organized_precedence (fs : Fs)
    (hd : fs.darksDirExists = true) (hl : fs.lightsDirExists = true)
    (hnd : 0 < fs.numDarksOrganized) (hnl : 0 < fs.numLightsOrganized)
    (_hnative : (detectNativeStructure fs).isSome = true) :
    (checkFolders fs).1 = some "organized" := by
  simp [checkFolders, hd, hl, hnd, hnl]

/-- Check point for C6 on a directory satisfying both layouts at once. -/
theorem c6_organized_precedence_witness :
    (detectNativeStructure fsBoth).isSome = true ∧
    (checkFolders fsBoth).1 = some "organized" :=
  ⟨by decide,
   c6_organized_precedence fsBoth rfl rfl (by decide) (by decide) (by decide)⟩

/-- C3: for every stacking method, the calibrate stage always passes
`-cc=dark` (dark-current correction), `-cfa` and `-equalize_cfa` (CFA
equalization), and passes `-debayer` exactly when the method does not use
drizzle.  The sequence name is one of the two the pipeline uses. -/
theorem c3_calibrate_flags (sm : StackMethod) (seq : String)
    (hseq : seq = "img-" ∨ seq = "light") :
    "-cc=dark" ∈ calibrateArgs seq sm ∧
    "-cfa" ∈ calibrateArgs seq sm ∧
    "-equalize_cfa" ∈ calibrateArgs seq sm ∧
    ("-debayer" ∈ calibrateArgs seq sm ↔ sm.use_drizzle = false) := by
  rcases hseq with h | h <;> subst h <;> cases hu : sm.use_drizzle <;>
    simp [calibrateArgs, hu]

/-- Check point for C3 at the organized sequence name and the standard
(non-drizzle) method. -/
theorem c3_calibrate_flags_witness :
    (("light" : String) = "img-" ∨ ("light" : String) = "light") ∧
    ("-cc=dark" ∈ calibrateArgs "light"
        { use_drizzle := false, drizzle_scale := none, drizzle_pixfrac := none,
          drizzle_kernel := none, interp := none, feather := 0 } ∧
     "-cfa" ∈ calibrateArgs "light"
        { use_drizzle := false, drizzle_scale := none, drizzle_pixfrac := none,
          drizzle_kernel := none, interp := none, feather := 0 } ∧
     "-equalize_cfa" ∈ calibrateArgs "light"
        { use_drizzle := false, drizzle_scale := none, drizzle_pixfrac := none,
          drizzle_kernel := none, interp := none, feather := 0 } ∧
     ("-debayer" ∈ calibrateArgs "light"
        { use_drizzle := false, drizzle_scale := none, drizzle_pixfrac := none,
          drizzle_kernel := none, interp := none, feather := 0 } ↔
      ({ use_drizzle := false, drizzle_scale := none, drizzle_pixfrac := none,
         drizzle_kernel := none, interp := none, feather := 0 } : StackMethod).use_drizzle
        = false)) :=
  ⟨Or.inr rfl, c3_calibrate_flags _ "light" (Or.inr rfl)⟩

/-- A working directory in the native layout only: 3 root calibration
frames, 40 signal frames and 2 reference TIFF rasters in
`01-images-initial/`, no organized folders. -/
def fsNative : Fs :=
  { darksDirExists := false, lightsDirExists := false, numDarksOrganized := 0,
    numLightsOrganized := 0, rootDarkCount := 3, imagesInitialExists := true,
    nativeLightCount := 40, nativeTiffCount := 2, darkFileExists := true,
    exposureTime := "3600" }

/-- A working directory with existing but empty `darks/` (and a populated
`lights/`): required calibration input absent at processing time. -/
def fsEmptyDarks : Fs :=
  { darksDirExists := true, lightsDirExists := true, numDarksOrganized := 0,
    numLightsOrganized := 7, rootDarkCount := 0, imagesInitialExists := false,
    nativeLightCount := 0, nativeTiffCount := 0, darkFileExists := false,
    exposureTime := "0" }

/-- The "No Filter (Stock)" registry entry. -/
def broadbandConfig : FilterConfig := { type := "broadband", script := "standard" }

/-- The "Bortle 3-4 (Rural)" registry entry. -/
def ruralPreset : SkyPreset :=
  { sigma_low := 3, sigma_high := 3, bg_samples := 9,
    bg_tolerance := 1, gradient_correction := true }

/-- The "Standard Registration" registry entry. -/
def standardMethod : StackMethod :=
  { use_drizzle := false, drizzle_scale := none, drizzle_pixfrac := none,
    drizzle_kernel := none, interp := none, feather := 0 }

/-- The "Dual-Band (Ha/OIII)" registry entry. -/
def dualbandConfig : FilterConfig := { type := "dualband", script := "extract_haoiii" }

/-- Settings selecting the dual-band filter with otherwise sample values. -/
def dualbandSettings : Settings :=
  { sampleSettings with filter := "Dual-Band (Ha/OIII)" }

/-- C2, contradicted by the code: on a native-layout run with reference
TIFF rasters present, no relocation to the `reference/` folder ever
happens — `_move_tiff_to_reference` (which would be non-trivial here, as
its translation shows) has no call site, so the conversion command is
issued with the TIFF rasters still in place. -/
theorem c2_tiff_relocation_never_performed :
    (checkFolders fsNative).1 = some "native" ∧
    0 < fsNative.nativeTiffCount ∧
    moveTiffToReference fsNative ≠ [] ∧
    relocationCount (process sampleSettings fsNative (some "native") true) = 0 ∧
    Action.cmd "convert" ["img-", "-out=../process"]
      ∈ process sampleSettings fsNative (some "native") true := by
  exact ⟨by decide, by decide, by decide, by decide, by decide⟩

/-- C1 counterexample: a native-layout run with 3 calibration frames in
the working-directory root issues no stacking call at all for the
calibration master — the native branch hardcodes a single dark — whereas
the claim requires exactly one such call whenever more than one
calibration frame is present. -/
theorem c1_counterexample :
    2 ≤ fsNative.rootDarkCount ∧
    (checkFolders fsNative).1 = some "native" ∧
    masterStackCount (process sampleSettings fsNative (some "native") true) = 0 ∧
    (process sampleSettings fsNative (some "native") true).getLast? =
      some (.finished true "Processing complete!") := by
  exact ⟨by decide, by decide, by decide, by decide⟩

/-- C1 amended: in the organized layout, a single calibration frame is
used directly as the master (no stacking call) and more than one yields
exactly one stacking call, carrying the active sky preset's rejection
thresholds and `-nonorm`; in the native layout the pipeline never issues a
master stacking call, regardless of how many root calibration frames are
present. -/
theorem c1_master_stacking_amended (st : Settings) (fs : Fs) (co : Bool)
    (fc : FilterConfig) (sp : SkyPreset) (sm : StackMethod)
    (h1 : FILTER_CONFIGS.lookup st.filter = some fc)
    (h2 : SKY_PRESETS.lookup st.sky_quality = some sp)
    (h3 : STACKING_METHODS.lookup st.stacking_method = some sm)
    (hd : fs.darksDirExists = true) (hl : fs.lightsDirExists = true)
    (hnd : 0 < fs.numDarksOrganized) (hnl : 0 < fs.numLightsOrganized)
    (hdf : fs.darkFileExists = true) (hii : fs.imagesInitialExists = true)
    (hnlc : 0 < fs.nativeLightCount) :
    masterStackCount (process st fs (some "organized") co) =
      (if fs.numDarksOrganized = 1 then 0 else 1) ∧
    (2 ≤ fs.numDarksOrganized →
      Action.cmd "stack" ["dark", "rej", pyFloatStr sp.sigma_low,
          pyFloatStr sp.sigma_high, "-nonorm", "-out=dark_stacked"]
        ∈ process st fs (some "organized") co) ∧
    masterStackCount (process st fs (some "native") co) = 0 := by
  rw [process_eq_organized st fs co fc sp sm h1 h2 h3 hd hl,
      process_eq_native st fs co fc sp sm h1 h2 h3 hdf hii]
  have hnd0 : fs.numDarksOrganized ≠ 0 := by omega
  have hnl0 : fs.numLightsOrganized ≠ 0 := by omega
  have hnlc0 : fs.nativeLightCount ≠ 0 := by omega
  refine ⟨?_, ?_, ?_⟩
  · by_cases h1d : fs.numDarksOrganized = 1 <;>
      cases hk : st.keep_temp_files <;>
      simp [processMain, hnd0, hnl0, h1d, hk, isMasterStack]
  · intro h2d
    have h1d : fs.numDarksOrganized ≠ 1 := by omega
    cases hk : st.keep_temp_files <;>
      simp [processMain, hnd0, hnl0, h1d, hk]
  · cases hk : st.keep_temp_files <;>
      simp [processMain, hnlc0, hk, isMasterStack]

/-- Check point for C1 on a directory with 3 calibration frames in both
layouts. -/
theorem c1_master_stacking_amended_witness :
    (0 < fsBoth.numDarksOrganized ∧ 2 ≤ fsBoth.numDarksOrganized ∧
      0 < fsBoth.nativeLightCount) ∧
    (masterStackCount (process sampleSettings fsBoth (some "organized") true) =
       (if fsBoth.numDarksOrganized = 1 then 0 else 1) ∧
     (2 ≤ fsBoth.numDarksOrganized →
       Action.cmd "stack" ["dark", "rej", pyFloatStr ruralPreset.sigma_low,
           pyFloatStr ruralPreset.sigma_high, "-nonorm", "-out=dark_stacked"]
         ∈ process sampleSettings fsBoth (some "organized") true) ∧
     masterStackCount (process sampleSettings fsBoth (some "native") true) = 0) :=
  ⟨⟨by decide, by decide, by decide⟩,
   c1_master_stacking_amended sampleSettings fsBoth true
     broadbandConfig ruralPreset standardMethod
     (by decide) (by decide) (by decide) rfl rfl
     (by decide) (by decide) rfl rfl (by decide)⟩

/-- C5: on every run with the dual-band filter configuration that passes
the input checks (in either layout), exactly three artifacts are saved
when the HOO composition succeeds and exactly two when it fails; the
composition failure is logged (as the salmon-coloured warning note) and
the run still ends with a success result. -/
theorem c5_dualband_artifacts (st : Settings) (fs : Fs) (co : Bool)
    (fc : FilterConfig) (sp : SkyPreset) (sm : StackMethod)
    (h1 : FILTER_CONFIGS.lookup st.filter = some fc)
    (h2 : SKY_PRESETS.lookup st.sky_quality = some sp)
    (h3 : STACKING_METHODS.lookup st.stacking_method = some sm)
    (hdb : fc.type = "dualband")
    (hd : fs.darksDirExists = true) (hl : fs.lightsDirExists = true)
    (hnd : 0 < fs.numDarksOrganized) (hnl : 0 < fs.numLightsOrganized)
    (hdf : fs.darkFileExists = true) (hii : fs.imagesInitialExists = true)
    (hnlc : 0 < fs.nativeLightCount) :
    (artifactSaveCount (process st fs (some "organized") co) =
       if co then 3 else 2) ∧
    (artifactSaveCount (process st fs (some "native") co) =
       if co then 3 else 2) ∧
    (co = false →
      Action.logMsg "HOO composite note" ∈ process st fs (some "organized") co ∧
      Action.logMsg "HOO composite note" ∈ process st fs (some "native") co) ∧
    (process st fs (some "organized") co).getLast? =
      some (.finished true "Processing complete!") ∧
    (process st fs (some "native") co).getLast? =
      some (.finished true "Processing complete!") := by
  rw [process_eq_organized st fs co fc sp sm h1 h2 h3 hd hl,
      process_eq_native st fs co fc sp sm h1 h2 h3 hdf hii]
  have hnd0 : fs.numDarksOrganized ≠ 0 := by omega
  have hnl0 : fs.numLightsOrganized ≠ 0 := by omega
  have hnlc0 : fs.nativeLightCount ≠ 0 := by omega
  refine ⟨?_, ?_, ?_, ?_, ?_⟩
  · by_cases h1d : fs.numDarksOrganized = 1 <;>
      cases hk : st.keep_temp_files <;>
      simp [processMain, hnd0, hnl0, h1d, hk, isArtifactSave,
        artifactSaveCount_filterDispatch_dualband _ _ _ _ _ _ _ _ _ hdb]
  · cases hk : st.keep_temp_files <;>
      simp [processMain, hnlc0, hk, isArtifactSave,
        artifactSaveCount_filterDispatch_dualband _ _ _ _ _ _ _ _ _ hdb]
  · intro hco
    subst hco
    constructor
    · by_cases h1d : fs.numDarksOrganized = 1 <;>
        cases hk : st.keep_temp_files <;>
        simp [processMain, hnd0, hnl0, h1d, hk, filterDispatch, hdb, processDualband]
    · cases hk : st.keep_temp_files <;>
        simp [processMain, hnlc0, hk, filterDispatch, hdb, processDualband]
  · by_cases h1d : fs.numDarksOrganized = 1 <;>
      cases hk : st.keep_temp_files <;>
      simp [processMain, hnd0, hnl0, h1d, hk, List.getLast?_append]
  · cases hk : st.keep_temp_files <;>
      simp [processMain, hnlc0, hk, List.getLast?_append]

/-- Check point for C5 on a dual-band run over the two-layout directory. -/
theorem c5_dualband_artifacts_witness :
    dualbandConfig.type = "dualband" ∧
    (artifactSaveCount (process dualbandSettings fsBoth (some "organized") false) =
       if false then 3 else 2) ∧
    (false = false →
      Action.logMsg "HOO composite note"
        ∈ process dualbandSettings fsBoth (some "organized") false ∧
      Action.logMsg "HOO composite note"
        ∈ process dualbandSettings fsBoth (some "native") false) ∧
    (process dualbandSettings fsBoth (some "organized") false).getLast? =
      some (.finished true "Processing complete!") := by
  have h := c5_dualband_artifacts dualbandSettings fsBoth false
    dualbandConfig ruralPreset standardMethod
    (by decide) (by decide) (by decide) rfl rfl rfl
    (by decide) (by decide) rfl rfl (by decide)
  exact ⟨rfl, h.1, h.2.2.1, h.2.2.2.1⟩

/-- C7 amended: whenever required input is absent, the run fails before
any stage with no host-engine command issued; when the failure is a
missing layout (or a missing layout folder), the scratch directories are
not created either, but when the layout folders exist and merely contain
zero frames, both scratch directories have already been created before
the failure event. -/
theorem c7_missing_input_amended (st : Settings) (fs : Fs) (co : Bool)
    (fc : FilterConfig) (sp : SkyPreset) (sm : StackMethod)
    (h1 : FILTER_CONFIGS.lookup st.filter = some fc)
    (h2 : SKY_PRESETS.lookup st.sky_quality = some sp)
    (h3 : STACKING_METHODS.lookup st.stacking_method = some sm) :
    process st fs none co = [.finished false "Error: NameError"] ∧
    (fs.darkFileExists = false →
      process st fs (some "native") co =
        [.finished false "Dark file not found: img-0001-dark.fits"]) ∧
    (fs.darkFileExists = true → fs.imagesInitialExists = false →
      process st fs (some "native") co =
        [.finished false "Lights folder not found"]) ∧
    (fs.darksDirExists = false →
      process st fs (some "organized") co =
        [.finished false "Dark folder not found"]) ∧
    (fs.darksDirExists = true → fs.lightsDirExists = false →
      process st fs (some "organized") co =
        [.finished false "Light folder not found"]) ∧
    (fs.darksDirExists = true → fs.lightsDirExists = true →
     fs.numDarksOrganized = 0 →
      hostCmdCount (process st fs (some "organized") co) = 0 ∧
      (process st fs (some "organized") co).getLast? =
        some (.finished false "No dark frames found") ∧
      Action.mkdir "process" ∈ process st fs (some "organized") co ∧
      Action.mkdir "masters" ∈ process st fs (some "organized") co) ∧
    (fs.darksDirExists = true → fs.lightsDirExists = true →
     fs.numDarksOrganized ≠ 0 → fs.numLightsOrganized = 0 →
      hostCmdCount (process st fs (some "organized") co) = 0 ∧
      (process st fs (some "organized") co).getLast? =
        some (.finished false "No light frames found") ∧
      Action.mkdir "process" ∈ process st fs (some "organized") co ∧
      Action.mkdir "masters" ∈ process st fs (some "organized") co) ∧
    (fs.darkFileExists = true → fs.imagesInitialExists = true →
     fs.nativeLightCount = 0 →
      hostCmdCount (process st fs (some "native") co) = 0 ∧
      (process st fs (some "native") co).getLast? =
        some (.finished false "No light frames found") ∧
      Action.mkdir "process" ∈ process st fs (some "native") co ∧
      Action.mkdir "masters" ∈ process st fs (some "native") co) := by
  refine ⟨by simp [process, h1, h2, h3], ?_, ?_, ?_, ?_, ?_, ?_, ?_⟩
  · intro ha
    simp [process, h1, h2, h3, ha]
  · intro ha hb
    simp [process, h1, h2, h3, ha, hb]
  · intro ha
    simp [process, h1, h2, h3, ha]
  · intro ha hb
    simp [process, h1, h2, h3, ha, hb]
  · intro ha hb hc
    rw [process_eq_organized st fs co fc sp sm h1 h2 h3 ha hb]
    simp [processMain, hc, isHostCmd]
  · intro ha hb hc hd'
    rw [process_eq_organized st fs co fc sp sm h1 h2 h3 ha hb]
    simp [processMain, hc, hd', isHostCmd]
  · intro ha hb hc
    rw [process_eq_native st fs co fc sp sm h1 h2 h3 ha hb]
    simp [processMain, hc, isHostCmd]

/-- C7 counterexample: with existing but empty `darks/`, the run does fail
with "No dark frames found" and issues no host-engine command — but the
`process/` scratch directory has already been created, contradicting the
claim that no scratch directories are created. -/
theorem c7_counterexample :
    (process sampleSettings fsEmptyDarks (some "organized") true).getLast? =
      some (.finished false "No dark frames found") ∧
    Action.mkdir "process"
      ∈ process sampleSettings fsEmptyDarks (some "organized") true ∧
    Action.mkdir "masters"
      ∈ process sampleSettings fsEmptyDarks (some "organized") true := by
  exact ⟨by decide, by decide, by decide⟩

/-- Check point for C7 on a concrete empty-darks directory and on the
unresolved layout. -/
theorem c7_missing_input_amended_witness :
    (hostCmdCount (process sampleSettings fsEmptyDarks (some "organized") true) = 0 ∧
     (process sampleSettings fsEmptyDarks (some "organized") true).getLast? =
       some (.finished false "No dark frames found") ∧
     Action.mkdir "process"
       ∈ process sampleSettings fsEmptyDarks (some "organized") true ∧
     Action.mkdir "masters"
       ∈ process sampleSettings fsEmptyDarks (some "organized") true) ∧
    process sampleSettings fsEmptyDarks none true =
      [.finished false "Error: NameError"] := by
  have h := c7_missing_input_amended sampleSettings fsEmptyDarks true
    broadbandConfig ruralPreset standardMethod (by decide) (by decide) (by decide)
  exact ⟨h.2.2.2.2.2.1 rfl rfl rfl, h.1⟩

end VesperaPro

namespace QuickPrep

/-- Observable event of `PrepWorker` (`Vespera_Quick_Prep.py`):
`progress`/`finished` are the Qt signals, `log` is `self.siril.log`, and
`cmd` is a host-engine call (`self.siril.cmd`).  The percent of a progress
event is `int(current_step / total_steps * 100)` and is NOT clamped by the
worker, hence `Nat` without an upper bound. -/
inductive Event where
  | progress (percent : Nat) (message : String)
  | finished (success : Bool) (message : String)
  | log (message : String)
  | cmd (name : String) (args : List String)
deriving DecidableEq, Repr

/-- The options dict built by `VesperaQuickPrepWindow._on_prep_clicked`
(the fields `bge_smoothing`, `denoise_strength`, `launch_hms`,
`optimize_format` and `continue_on_failure` are never read by
`PrepWorker.run`, except `denoise_strength` which is always 0.5 and appears
literally in the GraXpert denoise command). -/
structure Options where
  bge_method : String
  plate_solve : Bool
  pcc : Bool
  denoise_method : String
deriving DecidableEq, Repr

/-- Modelled from the spec: the methods `_run_background_extraction` and
`_run_plate_solve` are called by `PrepWorker.run` but are defined nowhere
in the source.  Per the spec, background extraction and plate solving are
best-effort steps whose host commands are internal to them; plate solving
"reports success/failure per call" and its failure is non-fatal (the
in-source `VesperaPlateSolver.siril_plate_solve` likewise catches its own
errors and returns a boolean).  `Outcome` records, per run: whether the
modelled background-extraction step raises an exception, the boolean
returned by the plate-solving step, and whether each of the two host
commands issued directly by `run` (the `pcc` command and the denoise
`pyscript` command) raises; `errMsg` is the `str(e)` of whichever
exception reaches `run`'s top-level handler. -/
structure Outcome where
  bgeRaises : Bool
  plateSolveOk : Bool
  pccRaises : Bool
  denoiseRaises : Bool
  errMsg : String
deriving DecidableEq, Repr

/-- The `total_steps` expression of `PrepWorker.run`, parsed exactly as
Python parses it: because a conditional expression's `else` arm extends as
far to the right as possible and `+` binds tighter, the four-line sum is in
fact one nested conditional, equal to 1 as soon as ANY option is enabled
(and 0 otherwise), before the `max(total_steps, 1)` clamp. -/
def totalSteps (o : Options) : Nat :=
  max
    (if o.bge_method ≠ "none" then 1
     else if o.plate_solve then 1
     else if o.pcc then 1
     else if o.denoise_method ≠ "none" then 1
     else 0)
    1

/-- `int(current_step / total_steps * 100)`: exact integer division here,
since `total_steps` is always 1 (see `totalSteps`), making the float
computation exact. -/
def stepPct (current_step total_steps : Nat) : Nat :=
  current_step * 100 / total_steps

/-- The denoise host command issued for each `denoise_method` value. -/
def denoiseCmd (o : Options) : List Event :=
  if o.denoise_method = "silentium" then
    [.cmd "pyscript" ["VeraLux_Silentium.py"]]
  else if o.denoise_method = "graxpert" then
    [.cmd "pyscript" ["GraXpert-AI.py", "-denoise", "-strength=0.5"]]
  else if o.denoise_method = "cosmic" then
    [.cmd "pyscript" ["CosmicClarity_Denoise.py"]]
  else []

/-- `PrepWorker.run`: the four optional steps in order, each preceded by a
progress event computed from the (defective) step counter; any exception
reaching the top of `run` emits `finished(False, str(e))` and ends the
run, and a successful run ends with `progress(100)` and
`finished(True, …)`.  A plate-solving failure only logs and clears
`plate_solve_success`, which in turn routes the PCC step to the skip log. -/
def run (o : Options) (r : Outcome) : List Event :=
  let t := totalSteps o
  let c1 := if o.bge_method ≠ "none" then 1 else 0
  let bgeEvents : List Event :=
    if o.bge_method ≠ "none" then
      [.progress (stepPct c1 t) "Extracting background..."]
    else []
  if o.bge_method ≠ "none" ∧ r.bgeRaises then
    bgeEvents ++ [.finished false r.errMsg]
  else
    let c2 := if o.plate_solve then c1 + 1 else c1
    let psEvents : List Event :=
      if o.plate_solve then
        [.progress (stepPct c2 t) "Plate solving..."] ++
        (if r.plateSolveOk then []
         else [.log "Plate solving failed, continuing with other processing..."])
      else []
    let plate_solve_success := o.plate_solve && r.plateSolveOk
    let c3 := if o.pcc && plate_solve_success then c2 + 1 else c2
    let pccEvents : List Event :=
      if o.pcc && plate_solve_success then
        [.progress (stepPct c3 t) "Color calibrating...",
         .log "Running Photometric Color Calibration...",
         .cmd "pcc" ["-limitmag=12"]]
      else if o.pcc && !plate_solve_success then
        [.log "Skipping PCC - requires plate solved image"]
      else []
    if o.pcc && plate_solve_success && r.pccRaises then
      bgeEvents ++ psEvents ++ pccEvents ++ [.finished false r.errMsg]
    else
      let c4 := if o.denoise_method ≠ "none" then c3 + 1 else c3
      let dnEvents : List Event :=
        if o.denoise_method ≠ "none" then
          [.progress (stepPct c4 t) "Denoising..."] ++ denoiseCmd o
        else []
      if o.denoise_method ≠ "none" ∧ r.denoiseRaises then
        bgeEvents ++ psEvents ++ pccEvents ++ dnEvents ++ [.finished false r.errMsg]
      else
        bgeEvents ++ psEvents ++ pccEvents ++ dnEvents ++
        [.progress 100 "Complete!",
         .finished true "Image prepared successfully!"]

/-- The sequence of percent values of the progress events of a trace, in
emission order. -/
def progressPercents (trace : List Event) : List Nat :=
  trace.filterMap fun e =>
    match e with
    | .progress p _ => some p
    | _ => none

/-- No denoise method ever issues the `pcc` command. -/
lemma pcc_not_mem_denoiseCmd (o : Options) (l : List String) :
    Event.cmd "pcc" l ∉ denoiseCmd o := by
  unfold denoiseCmd
  split_ifs <;> simp

/-- Options with background extraction and plate solving enabled and the
two remaining steps disabled. -/
def bgePlusPlateOptions : Options :=
  { bge_method := "graxpert", plate_solve := true, pcc := false,
    denoise_method := "none" }

/-- Options with plate solving and PCC enabled and the two remaining steps
disabled (the combination the GUI enforces whenever PCC is checked). -/
def pccEnabledOptions : Options :=
  { bge_method := "none", plate_solve := true, pcc := true,
    denoise_method := "none" }

/-- Outcome in which every step succeeds. -/
def allOkOutcome : Outcome :=
  { bgeRaises := false, plateSolveOk := true, pccRaises := false,
    denoiseRaises := false, errMsg := "" }

/-- Outcome in which plate solving succeeds but the `pcc` host command
raises. -/
def pccFailureOutcome : Outcome :=
  { bgeRaises := false, plateSolveOk := true, pccRaises := true,
    denoiseRaises := false, errMsg := "Command pcc failed" }

/-- Outcome in which plate solving reports failure and everything else
succeeds. -/
def plateSolveFailOutcome : Outcome :=
  { bgeRaises := false, plateSolveOk := false, pccRaises := false,
    denoiseRaises := false, errMsg := "" }

/-- C4, contradicted by the code: with background extraction and plate
solving both enabled (and every step succeeding), the preparation worker
emits the progress percents 100, 200, 100 in that order — the second event
exceeds the 0..100 bound and the final event decreases — because the
mis-parenthesized `total_steps` expression always evaluates to 1, so the
percent of step `k` is `k * 100`. -/
theorem c4_progress_exceeds_bound :
    progressPercents (run bgePlusPlateOptions allOkOutcome) = [100, 200, 100] ∧
    (∃ p ∈ progressPercents (run bgePlusPlateOptions allOkOutcome), 100 < p) := by
  constructor
  · rfl
  · decide

/-- C8 counterexample: a run in which the optional photometric-color-
calibration step fails (`siril.cmd("pcc", …)` raises) terminates with a
failure result, not success — the exception is caught only by the
top-level handler of `run`, which emits `finished(False, str(e))`. -/
theorem c8_counterexample :
    Event.cmd "pcc" ["-limitmag=12"] ∈ run pccEnabledOptions pccFailureOutcome ∧
    (run pccEnabledOptions pccFailureOutcome).getLast? =
      some (.finished false "Command pcc failed") := by
  constructor
  · decide
  · rfl

/-- C8 amended: a failure raised by the `pcc` host command aborts the run
with a failure result (only a plate-solving failure is tolerated; the
claim's assertion that a PCC failure leaves the run successful does not
hold). -/
theorem c8_pcc_failure_fatal (o : Options) (r : Outcome)
    (hp : o.pcc = true) (hps : o.plate_solve = true)
    (hok : r.plateSolveOk = true)
    (hbge : ¬(o.bge_method ≠ "none" ∧ r.bgeRaises = true))
    (hraise : r.pccRaises = true) :
    (run o r).getLast? = some (.finished false r.errMsg) := by
  obtain ⟨bge, ps, pcc, dn⟩ := o
  obtain ⟨br, pok, pr, dr, msg⟩ := r
  simp only at hp hps hok hraise hbge
  subst hp hps hok hraise
  by_cases hb : bge = "none"
  · subst hb
    simp [run, List.getLast?_append]
  · have hbr : br = false := by
      cases br
      · rfl
      · exact absurd ⟨hb, rfl⟩ hbge
    subst hbr
    simp [run, hb, List.getLast?_append]

/-- Check point for C8 at a concrete run with a failing PCC command. -/
theorem c8_pcc_failure_fatal_witness :
    pccEnabledOptions.pcc = true ∧
    pccEnabledOptions.plate_solve = true ∧
    pccFailureOutcome.plateSolveOk = true ∧
    ¬(pccEnabledOptions.bge_method ≠ "none" ∧ pccFailureOutcome.bgeRaises = true) ∧
    pccFailureOutcome.pccRaises = true ∧
    (run pccEnabledOptions pccFailureOutcome).getLast? =
      some (.finished false pccFailureOutcome.errMsg) :=
  ⟨rfl, rfl, rfl, by decide, rfl,
   c8_pcc_failure_fatal _ _ rfl rfl rfl (by decide) rfl⟩

/-- C10: provided the run is not aborted earlier by a background-extraction
exception, the `pcc` host command is issued exactly when the PCC option is
enabled and the plate-solving step ran and reported success; and when PCC
is enabled but plate solving fails, the skip message is logged and (absent
a denoise failure) the run still ends successfully. -/
theorem c10_pcc_iff_plate_solved (o : Options) (r : Outcome)
    (hbge : ¬(o.bge_method ≠ "none" ∧ r.bgeRaises = true)) :
    (Event.cmd "pcc" ["-limitmag=12"] ∈ run o r ↔
      o.pcc = true ∧ o.plate_solve = true ∧ r.plateSolveOk = true) ∧
    (o.pcc = true → o.plate_solve = true → r.plateSolveOk = false →
      Event.log "Skipping PCC - requires plate solved image" ∈ run o r ∧
      (¬(o.denoise_method ≠ "none" ∧ r.denoiseRaises = true) →
        (run o r).getLast? =
          some (.finished true "Image prepared successfully!"))) := by
  obtain ⟨bge, ps, pcc, dn⟩ := o
  obtain ⟨br, pok, pr, dr, msg⟩ := r
  by_cases hb : bge = "none" <;> by_cases hd : dn = "none" <;>
    cases ps <;> cases pok <;> cases pcc <;> cases pr <;> cases br <;> cases dr <;>
    simp_all [run, stepPct, pcc_not_mem_denoiseCmd, List.getLast?_append,
      getLast?_cons_append_pair]

/-- Check point for C10 at a concrete run with PCC enabled and a failing
plate solve. -/
theorem c10_pcc_iff_plate_solved_witness :
    (Event.cmd "pcc" ["-limitmag=12"] ∉ run pccEnabledOptions plateSolveFailOutcome) ∧
    Event.log "Skipping PCC - requires plate solved image"
      ∈ run pccEnabledOptions plateSolveFailOutcome ∧
    (run pccEnabledOptions plateSolveFailOutcome).getLast? =
      some (.finished true "Image prepared successfully!") := by
  have h := c10_pcc_iff_plate_solved pccEnabledOptions plateSolveFailOutcome (by decide)
  refine ⟨?_, (h.2 rfl rfl rfl).1, (h.2 rfl rfl rfl).2 (by decide)⟩
  intro hmem
  exact absurd (h.1.mp hmem).2.2 (by decide)

end QuickPrep
